import Mathlib

/-!
Verification development for the UFO 360 arcade game.

The definitions below are a shallow embedding of the game's core logic:
* the discrete game mode and session state machine of `App.tsx`
  (score / lives / level / star-coin tally / pipes-passed counters and the
  event handlers `startGame`, `handleRestartLevel`, `handlePipePass`,
  `handleCoinCollect`, `handleTrapHit`, `handleCrash`, `handleNextLevel`);
* the level tuning table and `getLevelConfig` of `levelConfig.ts`;
* the per-segment scroll/pass logic `movePipes` / `resetPipe` of
  `PipeSystem.tsx`;
* the flap impulse, the crash re-entrancy guard and the camera
  interpolation of `Scene.tsx`.

Numbers are modelled over `ℚ` (exact arithmetic standing in for the
JS doubles) and counters over `ℕ`/`ℤ`.  React's functional state updates
(including updates enqueued from inside another updater, which React
applies afterwards) are modelled by their net sequential effect on a
single state record.
-/

namespace UFO360

/-- Game mode, from `types.ts` (`GameState`). -/
inductive GameState where
  | cameraSetup
  | ready
  | playing
  | paused
  | pausedCameraSetup
  | gameOver
  | levelComplete
  | victory
  deriving DecidableEq, Repr

/-- Per-level tuning record, from `levelConfig.ts`. -/
structure LevelConfig where
  gameSpeed : ℚ
  gapHeight : ℚ
  pipeSpacing : ℚ
  pipeCount : ℕ
  color : String
  trapChance : ℚ
  deriving DecidableEq, Repr

/-- The level table `levels` of `levelConfig.ts`, in source order. -/
def levels : List LevelConfig :=
  [ { gameSpeed := 3.2, gapHeight := 4.5, pipeSpacing := 10, pipeCount := 10,
      color := "#4CAF50", trapChance := 0.1 },
    { gameSpeed := 3.4, gapHeight := 4.3, pipeSpacing := 9.8, pipeCount := 12,
      color := "#8BC34A", trapChance := 0.12 },
    { gameSpeed := 3.6, gapHeight := 4.1, pipeSpacing := 9.6, pipeCount := 14,
      color := "#CDDC39", trapChance := 0.15 },
    { gameSpeed := 3.8, gapHeight := 3.9, pipeSpacing := 9.4, pipeCount := 16,
      color := "#FFEB3B", trapChance := 0.18 },
    { gameSpeed := 4.0, gapHeight := 3.7, pipeSpacing := 9.2, pipeCount := 18,
      color := "#FFC107", trapChance := 0.22 },
    { gameSpeed := 4.2, gapHeight := 3.5, pipeSpacing := 9.0, pipeCount := 20,
      color := "#FF9800", trapChance := 0.26 },
    { gameSpeed := 4.4, gapHeight := 3.4, pipeSpacing := 8.8, pipeCount := 22,
      color := "#F44336", trapChance := 0.30 },
    { gameSpeed := 4.6, gapHeight := 3.3, pipeSpacing := 8.6, pipeCount := 24,
      color := "#E91E63", trapChance := 0.35 },
    { gameSpeed := 4.8, gapHeight := 3.2, pipeSpacing := 8.4, pipeCount := 26,
      color := "#9C27B0", trapChance := 0.40 },
    { gameSpeed := 5.0, gapHeight := 3.1, pipeSpacing := 8.2, pipeCount := 30,
      color := "#3F51B5", trapChance := 0.45 } ]

/-- `MAX_LEVELS = levels.length`, from `levelConfig.ts`. -/
def MAX_LEVELS : ℕ := levels.length

/-- `getLevelConfig` of `levelConfig.ts`:
`levels[Math.min(level - 1, levels.length - 1)]` (1-based level, clamped to
the last entry).  The `getD` default is irrelevant: the clamped index is
always in range. -/
def getLevelConfig (level : ℕ) : LevelConfig :=
  levels.getD (min (level - 1) (levels.length - 1))
    { gameSpeed := 0, gapHeight := 0, pipeSpacing := 0, pipeCount := 0,
      color := "", trapChance := 0 }

/-- The session state owned by `App.tsx`: the `useState` cells
`score`, `level`, `lives`, `starCoins` (the spec's bonus tally),
`pipesPassed` (the spec's `pipesPassedThisAttempt`) and `gameState`. -/
structure SessionState where
  score : ℤ
  level : ℕ
  lives : ℤ
  starCoins : ℕ
  pipesPassed : ℕ
  gameState : GameState
  deriving DecidableEq, Repr

/-- `startGame(startLevel)` of `App.tsx`: score 0, lives 5, the given
level, star coins 0, pipes passed 0, mode `ready`. -/
def startGame (startLevel : ℕ) (s : SessionState) : SessionState :=
  { s with score := 0, lives := 5, level := startLevel, starCoins := 0,
           pipesPassed := 0, gameState := .ready }

/-- `handleRestartLevel` of `App.tsx`: `startGame(level)`. -/
def handleRestartLevel (s : SessionState) : SessionState :=
  startGame s.level s

/-- `handlePipePass` of `App.tsx`: `score += 1`, `pipesPassed += 1`, and
if the level's `pipeCount > 0` and the new count reaches it, mode becomes
`levelComplete`. -/
def handlePipePass (s : SessionState) : SessionState :=
  let newPipesPassed := s.pipesPassed + 1
  let config := getLevelConfig s.level
  if 0 < config.pipeCount ∧ config.pipeCount ≤ newPipesPassed then
    { s with score := s.score + 1, pipesPassed := newPipesPassed,
             gameState := .levelComplete }
  else
    { s with score := s.score + 1, pipesPassed := newPipesPassed }

/-- `handleCoinCollect` of `App.tsx`: `score += 5`, `starCoins += 1`;
when the new tally reaches 25, gain a life and keep `newStarCoins - 25`. -/
def handleCoinCollect (s : SessionState) : SessionState :=
  let newStarCoins := s.starCoins + 1
  if 25 ≤ newStarCoins then
    { s with score := s.score + 5, starCoins := newStarCoins - 25,
             lives := s.lives + 1 }
  else
    { s with score := s.score + 5, starCoins := newStarCoins }

/-- `handleTrapHit` of `App.tsx`: `score = Math.max(0, score - 3)`. -/
def handleTrapHit (s : SessionState) : SessionState :=
  { s with score := max 0 (s.score - 3) }

/-- `handleCrash` of `App.tsx`.  `newLives = lives - 1`; if still positive,
restart the attempt on the same level; otherwise demote one level with 3
lives when `level > 1` (the inner `setLives(3)` enqueued from the updater
overrides the returned `newLives`), else game over with `lives = newLives`. -/
def handleCrash (s : SessionState) : SessionState :=
  let newLives := s.lives - 1
  if 0 < newLives then
    { s with lives := newLives, pipesPassed := 0, gameState := .ready }
  else if 1 < s.level then
    { s with lives := 3, level := s.level - 1, pipesPassed := 0,
             gameState := .ready }
  else
    { s with lives := newLives, gameState := .gameOver }

/-- `handleNextLevel` of `App.tsx`: at `level ≥ MAX_LEVELS` go to
`victory`; otherwise gain a life, advance a level, reset the attempt
counter and return to `ready`. -/
def handleNextLevel (s : SessionState) : SessionState :=
  if MAX_LEVELS ≤ s.level then
    { s with gameState := .victory }
  else
    { s with lives := s.lives + 1, level := s.level + 1, pipesPassed := 0,
             gameState := .ready }

/-- The three scoring events the collision resolver can emit
(`onPipePass`, `onCoinCollect`, `onTrapHit` in `Scene.tsx`). -/
inductive ScoreEvent where
  | pipePass
  | coinCollect
  | trapHit
  deriving DecidableEq, Repr

/-- Dispatch of a scoring event to its `App.tsx` handler. -/
def applyScoreEvent (s : SessionState) : ScoreEvent → SessionState
  | .pipePass => handlePipePass s
  | .coinCollect => handleCoinCollect s
  | .trapHit => handleTrapHit s

/-! ### Obstacle segments (`PipeSystem.tsx`) -/

/-- The per-segment mutable state that `movePipes` / `resetPipe` touch:
the group's scroll position `z`, the `passed` flag and the collectible's
visibility (`segment.coin.visible`). -/
structure PipeSegmentState where
  zPos : ℚ
  passed : Bool
  coinVisible : Bool
  deriving DecidableEq, Repr

/-- One segment's share of `movePipes(delta, onPipePass)` in
`PipeSystem.tsx`: translate by `gameSpeed * delta`, then, if not yet
passed and now at `z > 0` (the craft's axial position), set the flag and
fire the pass callback.  Returns the new state and whether `onPipePass`
fired. -/
def moveSegment (gameSpeed delta : ℚ) (seg : PipeSegmentState) :
    PipeSegmentState × Bool :=
  let z := seg.zPos + gameSpeed * delta
  if seg.passed = false ∧ 0 < z then
    ({ seg with zPos := z, passed := true }, true)
  else
    ({ seg with zPos := z }, false)

/-- The deterministic part of `resetPipe(segment, zPos)` in
`PipeSystem.tsx`: reposition and clear `passed` and restore the coin.
(The gap-centre randomisation only moves meshes inside the group.) -/
def resetPipe (seg : PipeSegmentState) (zPos : ℚ) : PipeSegmentState :=
  { seg with zPos := zPos, passed := false, coinVisible := true }

/-- Run a segment through a list of tick deltas, counting how many pass
events it fires. -/
def runSegment (gameSpeed : ℚ) (seg : PipeSegmentState) :
    List ℚ → PipeSegmentState × ℕ
  | [] => (seg, 0)
  | d :: ds =>
    let r := moveSegment gameSpeed d seg
    let rest := runSegment gameSpeed r.1 ds
    (rest.1, (if r.2 then 1 else 0) + rest.2)

/-! ### Craft controller (`Scene.tsx`) -/

/-- `JUMP_FORCE` of `Scene.tsx`. -/
def JUMP_FORCE : ℚ := 7

/-- The flap handler installed in `flapRef.current`:
`ufoVelocity.current = JUMP_FORCE` — an absolute set of the vertical
velocity, ignoring its previous value. -/
def flap (_verticalVelocity : ℚ) : ℚ := JUMP_FORCE

/-! ### Camera rig (`DynamicCamera` in `Scene.tsx`) -/

/-- Points of the scene, `THREE.Vector3` over exact rationals. -/
structure Vec3 where
  x : ℚ
  y : ℚ
  z : ℚ
  deriving DecidableEq, Repr

/-- `THREE.Vector3.lerp(v, alpha)`: each component moves by `alpha` times
its gap to the target. -/
def Vec3.lerp (p t : Vec3) (alpha : ℚ) : Vec3 :=
  { x := p.x + (t.x - p.x) * alpha,
    y := p.y + (t.y - p.y) * alpha,
    z := p.z + (t.z - p.z) * alpha }

/-- Componentwise sum. -/
def Vec3.add (p q : Vec3) : Vec3 :=
  { x := p.x + q.x, y := p.y + q.y, z := p.z + q.z }

/-- Squared Euclidean distance. -/
def Vec3.distSq (p q : Vec3) : ℚ :=
  (p.x - q.x) ^ 2 + (p.y - q.y) ^ 2 + (p.z - q.z) ^ 2

/-- `THREE.Vector3.setFromSpherical` with the sines and cosines of the
polar and azimuthal angles passed in as exact values:
`x = r·sin φ·sin θ`, `y = r·cos φ`, `z = r·sin φ·cos θ`. -/
def setFromSpherical (radius sinPolar cosPolar sinAzimuth cosAzimuth : ℚ) :
    Vec3 :=
  { x := radius * sinPolar * sinAzimuth,
    y := radius * cosPolar,
    z := radius * sinPolar * cosAzimuth }

/-- The target camera position of `DynamicCamera`:
`setFromSpherical(7 * zoomLevel, polar, azimuth) + lookAtPosition`. -/
def cameraTarget (lookAt : Vec3)
    (zoomLevel sinPolar cosPolar sinAzimuth cosAzimuth : ℚ) : Vec3 :=
  (setFromSpherical (7 * zoomLevel) sinPolar cosPolar sinAzimuth cosAzimuth).add
    lookAt

/-- The interpolation factor of `DynamicCamera`:
`(gameState === 'cameraSetup' || gameState === 'pausedCameraSetup') ? 1 : 0.1`. -/
def lerpFactor (gs : GameState) : ℚ :=
  if gs = .cameraSetup ∨ gs = .pausedCameraSetup then 1 else 0.1

/-- One `useFrame` camera update of `DynamicCamera`: lerp the current
position toward the spherical target with the mode's factor. -/
def cameraTick (gs : GameState) (camPos lookAt : Vec3)
    (zoomLevel sinPolar cosPolar sinAzimuth cosAzimuth : ℚ) : Vec3 :=
  camPos.lerp (cameraTarget lookAt zoomLevel sinPolar cosPolar sinAzimuth cosAzimuth)
    (lerpFactor gs)

/-! ### Crash re-entrancy guard (`Scene.tsx`) -/

/-- The crash-handling state of `Scene.tsx`: the `isCrashing` flag and
the number of `setTimeout(onCrash)` timers scheduled but not yet fired. -/
structure CrashState where
  isCrashing : Bool
  pendingCrash : ℕ
  crashesDelivered : ℕ
  deriving DecidableEq, Repr

/-- `handleImmediateCrash` of `Scene.tsx`: `if (isCrashing) return;`
otherwise set the flag and schedule one `onCrash` timer. -/
def handleImmediateCrash (s : CrashState) : CrashState :=
  if s.isCrashing then s
  else { s with isCrashing := true, pendingCrash := s.pendingCrash + 1 }

/-- The `setTimeout` callback firing: deliver `onCrash()` to the state
machine and clear `isCrashing`. -/
def crashTimerFire (s : CrashState) : CrashState :=
  if 0 < s.pendingCrash then
    { isCrashing := false, pendingCrash := s.pendingCrash - 1,
      crashesDelivered := s.crashesDelivered + 1 }
  else s

/-- One `useFrame` physics/collision step, abstracted to whether this
frame's collision tests would find a hit: the frame returns early while
`isCrashing` (physics and collision suspended), otherwise a hit calls
`handleImmediateCrash`. -/
def frameStep (wouldCollide : Bool) (s : CrashState) : CrashState :=
  if s.isCrashing then s
  else if wouldCollide then handleImmediateCrash s
  else s

/-- The events that can touch the crash state. -/
inductive CrashEvent where
  | frame (wouldCollide : Bool)
  | timerFire
  deriving DecidableEq, Repr

/-- Dispatch of a crash-subsystem event. -/
def crashStep (s : CrashState) : CrashEvent → CrashState
  | .frame c => frameStep c s
  | .timerFire => crashTimerFire s

/-- The re-entrancy invariant: at most one crash is ever in flight, and
a pending crash timer exists exactly while `isCrashing` holds. -/
def CrashInv (s : CrashState) : Prop :=
  s.pendingCrash ≤ 1 ∧ (s.isCrashing = false → s.pendingCrash = 0)

instance (s : CrashState) : Decidable (CrashInv s) := by
  unfold CrashInv
  infer_instance

/-! ### Theorems -/

/-- C1: a crash in `playing` mode with `lives > 1` decrements `lives`,
resets the attempt counter and returns to `ready`; with `lives = 1` it
demotes to `level - 1` with 3 lives when `level > 1`, and only on
`level = 1` does it end the game with `mode = gameOver` (lives reaching 0).
In particular `lives = 1, level = 5` demotes to `level = 4, lives = 3,
ready`, and `lives = 1, level = 1` gives `gameOver`. -/
theorem handleCrash_transitions (s₁ s₂ s₃ : SessionState)
    (h₁ : 1 < s₁.lives)
    (h₂ : s₂.lives = 1) (h₂l : 1 < s₂.level)
    (h₃ : s₃.lives = 1) (h₃l : s₃.level = 1) :
    handleCrash s₁ = { s₁ with lives := s₁.lives - 1, pipesPassed := 0, gameState := .ready }
    ∧ handleCrash s₂ = { s₂ with lives := 3, level := s₂.level - 1, pipesPassed := 0, gameState := .ready }
    ∧ handleCrash s₃ = { s₃ with lives := 0, gameState := .gameOver } := by
  refine ⟨?_, ?_, ?_⟩
  · unfold handleCrash
    rw [if_pos (by omega)]
  · unfold handleCrash
    rw [if_neg (by omega), if_pos h₂l]
  · unfold handleCrash
    rw [if_neg (by omega), if_neg (by omega), h₃]
    norm_num

/-- Witness for C1 at concrete states, including the spec's two
instances `lives=1, level=5` and `lives=1, level=1`. -/
theorem handleCrash_transitions_witness :
    handleCrash ⟨10, 2, 5, 3, 4, .playing⟩ = ⟨10, 2, 4, 3, 0, .ready⟩
    ∧ handleCrash ⟨10, 5, 1, 3, 4, .playing⟩ = ⟨10, 4, 3, 3, 0, .ready⟩
    ∧ handleCrash ⟨10, 1, 1, 3, 4, .playing⟩ = ⟨10, 1, 0, 3, 4, .gameOver⟩ :=
  handleCrash_transitions
    ⟨10, 2, 5, 3, 4, .playing⟩ ⟨10, 5, 1, 3, 4, .playing⟩
    ⟨10, 1, 1, 3, 4, .playing⟩
    (by decide) (by decide) (by decide) (by decide) (by decide)

/-- C2: a bonus collect adds 5 to score and 1 to the tally; when the new
tally reaches 25 it adds one life and keeps `newTally - 25` (wrap that
preserves overflow), and from tally 24 one collect gives tally 0 and one
extra life. -/
theorem handleCoinCollect_rules (s₁ s₂ s₃ : SessionState)
    (h₁ : s₁.starCoins + 1 < 25) (h₂ : 25 ≤ s₂.starCoins + 1)
    (h₃ : s₃.starCoins = 24) :
    handleCoinCollect s₁ = { s₁ with score := s₁.score + 5, starCoins := s₁.starCoins + 1 }
    ∧ handleCoinCollect s₂ = { s₂ with score := s₂.score + 5, starCoins := s₂.starCoins + 1 - 25, lives := s₂.lives + 1 }
    ∧ handleCoinCollect s₃ = { s₃ with score := s₃.score + 5, starCoins := 0, lives := s₃.lives + 1 } := by
  refine ⟨?_, ?_, ?_⟩
  · unfold handleCoinCollect
    rw [if_neg (by omega)]
  · unfold handleCoinCollect
    rw [if_pos h₂]
  · unfold handleCoinCollect
    rw [if_pos (by omega), h₃]

/-- Witness for C2, with the wrap instance starting at tally 24. -/
theorem handleCoinCollect_rules_witness :
    handleCoinCollect ⟨10, 2, 5, 3, 4, .playing⟩ = ⟨15, 2, 5, 4, 4, .playing⟩
    ∧ handleCoinCollect ⟨10, 2, 5, 24, 4, .playing⟩ = ⟨15, 2, 6, 0, 4, .playing⟩
    ∧ handleCoinCollect ⟨7, 3, 2, 24, 1, .playing⟩ = ⟨12, 3, 3, 0, 1, .playing⟩ :=
  handleCoinCollect_rules
    ⟨10, 2, 5, 3, 4, .playing⟩ ⟨10, 2, 5, 24, 4, .playing⟩
    ⟨7, 3, 2, 24, 1, .playing⟩
    (by decide) (by decide) (by decide)

/-- C5: from `levelComplete`, the next-level confirmation goes to `ready`
with `level + 1` and `lives + 1` when `level < MAX_LEVELS`, and to
`victory` (nothing else changed) when `level ≥ MAX_LEVELS`. -/
theorem handleNextLevel_transitions (s₁ s₂ : SessionState)
    (h₁ : s₁.level < MAX_LEVELS) (h₂ : MAX_LEVELS ≤ s₂.level) :
    handleNextLevel s₁ = { s₁ with level := s₁.level + 1, lives := s₁.lives + 1, pipesPassed := 0, gameState := .ready }
    ∧ handleNextLevel s₂ = { s₂ with gameState := .victory } := by
  constructor
  · unfold handleNextLevel
    rw [if_neg (by omega)]
  · unfold handleNextLevel
    rw [if_pos h₂]

/-- Witness for C5 at level 4 (advance) and level 10 = `MAX_LEVELS`
(victory). -/
theorem handleNextLevel_transitions_witness :
    handleNextLevel ⟨40, 4, 2, 3, 16, .levelComplete⟩
      = ⟨40, 5, 3, 3, 0, .ready⟩
    ∧ handleNextLevel ⟨99, 10, 2, 3, 30, .levelComplete⟩
      = ⟨99, 10, 2, 3, 30, .victory⟩ :=
  handleNextLevel_transitions
    ⟨40, 4, 2, 3, 16, .levelComplete⟩ ⟨99, 10, 2, 3, 30, .levelComplete⟩
    (by decide) (by decide)

/-- C10: from `gameOver` or `victory`, retry-level keeps the current
level but resets score to 0, lives to 5 (not the 3 of demotion), the
bonus tally to 0 and the attempt counter to 0, entering `ready`. -/
theorem handleRestartLevel_resets (s : SessionState)
    (_h : s.gameState = .gameOver ∨ s.gameState = .victory) :
    handleRestartLevel s = { s with score := 0, lives := 5, starCoins := 0, pipesPassed := 0, gameState := .ready } := by
  rfl

/-- Witness for C10: retrying level 7 after game over grants 5 lives and
zeroes the score and tally. -/
theorem handleRestartLevel_resets_witness :
    handleRestartLevel ⟨123, 7, 0, 18, 9, .gameOver⟩
      = ⟨0, 7, 5, 0, 0, .ready⟩ :=
  handleRestartLevel_resets ⟨123, 7, 0, 18, 9, .gameOver⟩ (Or.inl rfl)

/-- C3: for `1 ≤ L ≤ levels.length`, `getLevelConfig L` is exactly the
L-th table entry; beyond the table it is the last entry, so clamping is
idempotent: `getLevelConfig (MAX_LEVELS + 5) = getLevelConfig MAX_LEVELS`. -/
theorem getLevelConfig_clamps (L Lhi : ℕ) (h₁ : 1 ≤ L)
    (h₂ : L ≤ levels.length) (h₃ : levels.length ≤ Lhi) :
    levels[L - 1]? = some (getLevelConfig L)
    ∧ getLevelConfig Lhi = getLevelConfig levels.length
    ∧ getLevelConfig (MAX_LEVELS + 5) = getLevelConfig MAX_LEVELS := by
  refine ⟨?_, ?_, rfl⟩
  · have hlen : levels.length = 10 := rfl
    rw [hlen] at h₂
    interval_cases L <;> rfl
  · have hlen : levels.length = 10 := rfl
    have hm : min (Lhi - 1) (levels.length - 1)
        = min (levels.length - 1) (levels.length - 1) := by
      rw [hlen] at h₃ ⊢
      omega
    unfold getLevelConfig
    rw [hm]

/-- Witness for C3 at `L = 3` and `Lhi = 15 = MAX_LEVELS + 5`. -/
theorem getLevelConfig_clamps_witness :
    levels[3 - 1]? = some (getLevelConfig 3)
    ∧ getLevelConfig 15 = getLevelConfig levels.length
    ∧ getLevelConfig (MAX_LEVELS + 5) = getLevelConfig MAX_LEVELS :=
  getLevelConfig_clamps 3 15 (by decide) (by decide) (by decide)

/-- A single scoring event keeps the score non-negative. -/
theorem applyScoreEvent_score_nonneg (s : SessionState) (e : ScoreEvent)
    (h : 0 ≤ s.score) : 0 ≤ (applyScoreEvent s e).score := by
  cases e with
  | pipePass =>
    show 0 ≤ (handlePipePass s).score
    unfold handlePipePass
    dsimp only
    split
    · show 0 ≤ s.score + 1
      omega
    · show 0 ≤ s.score + 1
      omega
  | coinCollect =>
    show 0 ≤ (handleCoinCollect s).score
    unfold handleCoinCollect
    dsimp only
    split
    · show 0 ≤ s.score + 5
      omega
    · show 0 ≤ s.score + 5
      omega
  | trapHit =>
    show 0 ≤ max 0 (s.score - 3)
    omega

/-- C4: with a non-negative starting score (in particular score 0), any
sequence of scoring events — pipe passes, bonus collects and hazard hits —
leaves the score non-negative, the hazard hit being
`score = max 0 (score - 3)`. -/
theorem score_floor (s : SessionState) (es : List ScoreEvent)
    (h : 0 ≤ s.score) :
    0 ≤ (es.foldl applyScoreEvent s).score
    ∧ (handleTrapHit s).score = max 0 (s.score - 3) := by
  refine ⟨?_, rfl⟩
  induction es generalizing s with
  | nil => exact h
  | cons e es ih => exact ih _ (applyScoreEvent_score_nonneg s e h)

/-- Witness for C4: from score 0, three hazard hits interleaved with a
pass and a bonus never drop the score below 0. -/
theorem score_floor_witness :
    0 ≤ (([.trapHit, .trapHit, .pipePass, .trapHit, .coinCollect,
           .trapHit, .trapHit] : List ScoreEvent).foldl applyScoreEvent
          ⟨0, 1, 5, 0, 0, .playing⟩).score
    ∧ (handleTrapHit ⟨0, 1, 5, 0, 0, .playing⟩).score = max 0 (0 - 3) :=
  score_floor ⟨0, 1, 5, 0, 0, .playing⟩
    [.trapHit, .trapHit, .pipePass, .trapHit, .coinCollect, .trapHit,
     .trapHit] (by decide)

/-- C6: a flap sets the vertical velocity to the jump impulse
`JUMP_FORCE = 7` whatever it was before, so any positive number of
consecutive flaps with no tick in between leaves the velocity at 7. -/
theorem flap_absolute_set (v : ℚ) (n : ℕ) (h : 1 ≤ n) :
    flap v = JUMP_FORCE ∧ JUMP_FORCE = 7 ∧ flap^[n] v = 7 := by
  refine ⟨rfl, rfl, ?_⟩
  obtain ⟨m, rfl⟩ : ∃ m, n = m + 1 := ⟨n - 1, by omega⟩
  rw [Function.iterate_succ_apply']
  rfl

/-- Witness for C6: five rapid flaps from velocity `-13/2` leave
velocity 7. -/
theorem flap_absolute_set_witness :
    flap (-13 / 2) = JUMP_FORCE ∧ JUMP_FORCE = 7
    ∧ flap^[5] (-13 / 2) = 7 :=
  flap_absolute_set (-13 / 2) 5 (by decide)

/-- A segment that already carries the `passed` flag never fires again
and keeps the flag. -/
theorem moveSegment_passed_no_fire (gameSpeed d : ℚ) (s : PipeSegmentState)
    (h : s.passed = true) :
    (moveSegment gameSpeed d s).2 = false
    ∧ (moveSegment gameSpeed d s).1.passed = true := by
  unfold moveSegment
  rw [if_neg (by simp [h])]
  exact ⟨rfl, h⟩

/-- A fired tick means the segment was unpassed, its new position crossed
`z = 0`, and the flag is set afterwards. -/
theorem moveSegment_fire_characterisation (gameSpeed d : ℚ)
    (s : PipeSegmentState) (h : (moveSegment gameSpeed d s).2 = true) :
    s.passed = false ∧ 0 < s.zPos + gameSpeed * d
    ∧ (moveSegment gameSpeed d s).1.passed = true := by
  by_cases hc : s.passed = false ∧ 0 < s.zPos + gameSpeed * d
  · refine ⟨hc.1, hc.2, ?_⟩
    unfold moveSegment
    rw [if_pos hc]
  · exfalso
    unfold moveSegment at h
    rw [if_neg hc] at h
    exact Bool.false_ne_true h

/-- A tick that does not fire leaves the `passed` flag as it was. -/
theorem moveSegment_no_fire_keeps (gameSpeed d : ℚ) (s : PipeSegmentState)
    (h : (moveSegment gameSpeed d s).2 = false) :
    (moveSegment gameSpeed d s).1.passed = s.passed := by
  by_cases hc : s.passed = false ∧ 0 < s.zPos + gameSpeed * d
  · exfalso
    unfold moveSegment at h
    rw [if_pos hc] at h
    exact absurd h (by simp)
  · unfold moveSegment
    rw [if_neg hc]

/-- A segment whose flag is already set fires nothing over any run. -/
theorem runSegment_passed_zero (gameSpeed : ℚ) (s : PipeSegmentState)
    (ds : List ℚ) (h : s.passed = true) :
    (runSegment gameSpeed s ds).2 = 0 := by
  induction ds generalizing s with
  | nil => rfl
  | cons d ds ih =>
    obtain ⟨hf, hk⟩ := moveSegment_passed_no_fire gameSpeed d s h
    show (if (moveSegment gameSpeed d s).2 then 1 else 0)
        + (runSegment gameSpeed (moveSegment gameSpeed d s).1 ds).2 = 0
    rw [hf, ih _ hk]
    simp

/-- An unpassed segment fires at most once over any run of ticks. -/
theorem runSegment_unpassed_le_one (gameSpeed : ℚ) (s : PipeSegmentState)
    (ds : List ℚ) (h : s.passed = false) :
    (runSegment gameSpeed s ds).2 ≤ 1 := by
  induction ds generalizing s with
  | nil => exact Nat.zero_le 1
  | cons d ds ih =>
    show (if (moveSegment gameSpeed d s).2 then 1 else 0)
        + (runSegment gameSpeed (moveSegment gameSpeed d s).1 ds).2 ≤ 1
    cases hfire : (moveSegment gameSpeed d s).2 with
    | true =>
      have hset := (moveSegment_fire_characterisation gameSpeed d s hfire).2.2
      rw [runSegment_passed_zero gameSpeed _ ds hset]
      simp
    | false =>
      have hkeep := moveSegment_no_fire_keeps gameSpeed d s hfire
      have hrest := ih (moveSegment gameSpeed d s).1 (hkeep.trans h)
      simp only [if_neg Bool.false_ne_true]
      omega

/-- C7: starting from a freshly reset segment (`resetPipe` clears the
`passed` flag and restores the coin), any sequence of `movePipes` ticks
fires at most one pass event; a tick fires exactly when the unpassed
segment's new scroll position crosses the craft's axial position `z = 0`,
setting the flag, and a segment whose flag is set never fires again
until a reset clears it. -/
theorem segment_pass_fires_once (gameSpeed z d : ℚ)
    (seg s₁ s₂ : PipeSegmentState) (ds : List ℚ)
    (hfire : (moveSegment gameSpeed d s₁).2 = true)
    (hpassed : s₂.passed = true) :
    (runSegment gameSpeed (resetPipe seg z) ds).2 ≤ 1
    ∧ (resetPipe seg z).passed = false
    ∧ s₁.passed = false ∧ 0 < s₁.zPos + gameSpeed * d
    ∧ (moveSegment gameSpeed d s₁).1.passed = true
    ∧ (moveSegment gameSpeed d s₂).2 = false
    ∧ (moveSegment gameSpeed d s₂).1.passed = true := by
  obtain ⟨hp, hcross, hset⟩ :=
    moveSegment_fire_characterisation gameSpeed d s₁ hfire
  obtain ⟨hnof, hkeepf⟩ := moveSegment_passed_no_fire gameSpeed d s₂ hpassed
  have hcount := runSegment_unpassed_le_one gameSpeed (resetPipe seg z) ds rfl
  exact ⟨hcount, rfl, hp, hcross, hset, hnof, hkeepf⟩

/-- Witness for C7: a reset segment run through four ticks at speed 1
fires exactly once; a crossing tick fires and sets the flag; a passed
segment does not fire. -/
theorem segment_pass_fires_once_witness :
    (runSegment 1 (resetPipe ⟨5, true, false⟩ (-3)) [1, 1, 1, 1]).2 ≤ 1
    ∧ (resetPipe ⟨5, true, false⟩ (-3)).passed = false
    ∧ (⟨-1, false, true⟩ : PipeSegmentState).passed = false
    ∧ 0 < (⟨-1, false, true⟩ : PipeSegmentState).zPos + 1 * 2
    ∧ (moveSegment 1 2 ⟨-1, false, true⟩).1.passed = true
    ∧ (moveSegment 1 2 ⟨-1, true, true⟩).2 = false
    ∧ (moveSegment 1 2 ⟨-1, true, true⟩).1.passed = true :=
  segment_pass_fires_once 1 (-3) 2 ⟨5, true, false⟩ ⟨-1, false, true⟩
    ⟨-1, true, true⟩ [1, 1, 1, 1] (by simp [moveSegment]) rfl

/-- Lerping with factor 1 lands exactly on the target. -/
theorem Vec3.lerp_one (p t : Vec3) : p.lerp t 1 = t := by
  cases p
  cases t
  simp only [Vec3.lerp, Vec3.mk.injEq]
  refine ⟨by ring, by ring, by ring⟩

/-- Lerping with factor 1/10 from off the target does not reach it. -/
theorem Vec3.lerp_tenth_ne_target (p t : Vec3) (h : p ≠ t) :
    p.lerp t 0.1 ≠ t := by
  intro hEq
  apply h
  cases p
  cases t
  simp only [Vec3.lerp, Vec3.mk.injEq] at hEq ⊢
  obtain ⟨h1, h2, h3⟩ := hEq
  norm_num at h1 h2 h3
  refine ⟨by linarith, by linarith, by linarith⟩

/-- Lerping with factor 1/10 from off the target does move. -/
theorem Vec3.lerp_tenth_ne_self (p t : Vec3) (h : p ≠ t) :
    p.lerp t 0.1 ≠ p := by
  intro hEq
  apply h
  cases p
  cases t
  simp only [Vec3.lerp, Vec3.mk.injEq] at hEq ⊢
  obtain ⟨h1, h2, h3⟩ := hEq
  norm_num at h1 h2 h3
  refine ⟨by linarith, by linarith, by linarith⟩

/-- The spherical target lies on the sphere of radius `7 * zoomLevel`
around the look-at point. -/
theorem cameraTarget_on_sphere (lookAt : Vec3)
    (zoom sinP cosP sinA cosA : ℚ)
    (hP : sinP ^ 2 + cosP ^ 2 = 1) (hA : sinA ^ 2 + cosA ^ 2 = 1) :
    Vec3.distSq (cameraTarget lookAt zoom sinP cosP sinA cosA) lookAt
      = (7 * zoom) ^ 2 := by
  cases lookAt
  simp only [cameraTarget, setFromSpherical, Vec3.add, Vec3.distSq]
  ring_nf
  linear_combination (7 * zoom) ^ 2 * sinP ^ 2 * hA + (7 * zoom) ^ 2 * hP

/-- C8: in `cameraSetup` and `pausedCameraSetup` the interpolation factor
is 1, so one tick puts the camera exactly at the spherical target — on the
sphere of radius `7 * zoomLevel` around the look-at point; in `playing`,
`paused` and `ready` the factor is the fixed constant 0.1, so one tick
from off the target neither reaches it nor stays put. -/
theorem camera_interpolation (p lookAt : Vec3)
    (zoom sinP cosP sinA cosA : ℚ)
    (hP : sinP ^ 2 + cosP ^ 2 = 1) (hA : sinA ^ 2 + cosA ^ 2 = 1)
    (hne : p ≠ cameraTarget lookAt zoom sinP cosP sinA cosA) :
    lerpFactor .cameraSetup = 1 ∧ lerpFactor .pausedCameraSetup = 1
    ∧ cameraTick .cameraSetup p lookAt zoom sinP cosP sinA cosA
        = cameraTarget lookAt zoom sinP cosP sinA cosA
    ∧ cameraTick .pausedCameraSetup p lookAt zoom sinP cosP sinA cosA
        = cameraTarget lookAt zoom sinP cosP sinA cosA
    ∧ Vec3.distSq (cameraTick .cameraSetup p lookAt zoom sinP cosP sinA cosA)
        lookAt = (7 * zoom) ^ 2
    ∧ lerpFactor .playing = 0.1 ∧ lerpFactor .paused = 0.1
    ∧ lerpFactor .ready = 0.1
    ∧ cameraTick .playing p lookAt zoom sinP cosP sinA cosA
        ≠ cameraTarget lookAt zoom sinP cosP sinA cosA
    ∧ cameraTick .playing p lookAt zoom sinP cosP sinA cosA ≠ p := by
  have hsnap : cameraTick .cameraSetup p lookAt zoom sinP cosP sinA cosA
      = cameraTarget lookAt zoom sinP cosP sinA cosA :=
    Vec3.lerp_one p _
  refine ⟨rfl, rfl, hsnap, Vec3.lerp_one p _, ?_, rfl, rfl, rfl, ?_, ?_⟩
  · rw [hsnap]
    exact cameraTarget_on_sphere lookAt zoom sinP cosP sinA cosA hP hA
  · exact Vec3.lerp_tenth_ne_target p _ hne
  · exact Vec3.lerp_tenth_ne_self p _ hne

/-- Witness for C8 at the camera's default pose (`polar` with sine 1 and
cosine 0, azimuth with sine 0 and cosine 1, zoom 1) from a camera sitting
at the origin. -/
theorem camera_interpolation_witness :
    lerpFactor .cameraSetup = 1 ∧ lerpFactor .pausedCameraSetup = 1
    ∧ cameraTick .cameraSetup ⟨0, 0, 0⟩ ⟨0, 2, 0⟩ 1 1 0 0 1
        = cameraTarget ⟨0, 2, 0⟩ 1 1 0 0 1
    ∧ cameraTick .pausedCameraSetup ⟨0, 0, 0⟩ ⟨0, 2, 0⟩ 1 1 0 0 1
        = cameraTarget ⟨0, 2, 0⟩ 1 1 0 0 1
    ∧ Vec3.distSq (cameraTick .cameraSetup ⟨0, 0, 0⟩ ⟨0, 2, 0⟩ 1 1 0 0 1)
        ⟨0, 2, 0⟩ = (7 * 1) ^ 2
    ∧ lerpFactor .playing = 0.1 ∧ lerpFactor .paused = 0.1
    ∧ lerpFactor .ready = 0.1
    ∧ cameraTick .playing ⟨0, 0, 0⟩ ⟨0, 2, 0⟩ 1 1 0 0 1
        ≠ cameraTarget ⟨0, 2, 0⟩ 1 1 0 0 1
    ∧ cameraTick .playing ⟨0, 0, 0⟩ ⟨0, 2, 0⟩ 1 1 0 0 1 ≠ ⟨0, 0, 0⟩ :=
  camera_interpolation ⟨0, 0, 0⟩ ⟨0, 2, 0⟩ 1 1 0 0 1 (by norm_num)
    (by norm_num)
    (by simp [cameraTarget, setFromSpherical, Vec3.add])

/-- A crash-subsystem event preserves the re-entrancy invariant. -/
theorem crashStep_preserves_inv (s : CrashState) (e : CrashEvent)
    (h : CrashInv s) : CrashInv (crashStep s e) := by
  obtain ⟨h1, h2⟩ := h
  cases e with
  | frame c =>
    show CrashInv (frameStep c s)
    cases hic : s.isCrashing with
    | true =>
      have hid : frameStep c s = s := by
        unfold frameStep
        rw [if_pos hic]
      rw [hid]
      exact ⟨h1, h2⟩
    | false =>
      cases c with
      | true =>
        have htrig : frameStep true s
            = { s with isCrashing := true,
                       pendingCrash := s.pendingCrash + 1 } := by
          unfold frameStep handleImmediateCrash
          rw [if_neg (by simp [hic]), if_pos rfl, if_neg (by simp [hic])]
        rw [htrig]
        have hzero : s.pendingCrash = 0 := h2 hic
        show s.pendingCrash + 1 ≤ 1 ∧ (true = false → s.pendingCrash + 1 = 0)
        exact ⟨by omega, fun hcontra => absurd hcontra (by simp)⟩
      | false =>
        have hid : frameStep false s = s := by
          unfold frameStep
          rw [if_neg (by simp [hic]), if_neg (by simp)]
        rw [hid]
        exact ⟨h1, h2⟩
  | timerFire =>
    show CrashInv (crashTimerFire s)
    by_cases hp : 0 < s.pendingCrash
    · have hfire : crashTimerFire s
          = ⟨false, s.pendingCrash - 1, s.crashesDelivered + 1⟩ := by
        unfold crashTimerFire
        rw [if_pos hp]
      rw [hfire]
      show s.pendingCrash - 1 ≤ 1 ∧ (false = false → s.pendingCrash - 1 = 0)
      exact ⟨by omega, fun _ => by omega⟩
    · have hid : crashTimerFire s = s := by
        unfold crashTimerFire
        rw [if_neg hp]
      rw [hid]
      exact ⟨h1, h2⟩

/-- C9: while a crash is being processed (`isCrashing` set, the delay
timer pending), a second crash trigger is a no-op and the per-frame
physics/collision step changes nothing; consequently, starting from the
idle state, any event sequence keeps at most one crash in flight, with a
pending delivery exactly while `isCrashing` holds. -/
theorem crash_reentrancy_guard (s t : CrashState) (es : List CrashEvent)
    (c : Bool) (hs : s.isCrashing = true) (ht : CrashInv t) :
    handleImmediateCrash s = s
    ∧ frameStep c s = s
    ∧ CrashInv (es.foldl crashStep t) := by
  refine ⟨?_, ?_, ?_⟩
  · unfold handleImmediateCrash
    rw [if_pos hs]
  · unfold frameStep
    rw [if_pos hs]
  · induction es generalizing t with
    | nil => exact ht
    | cons e es ih => exact ih _ (crashStep_preserves_inv t e ht)

/-- Witness for C9: with a crash in flight, a collision frame and a
re-trigger are no-ops, and from the idle state the trace
trigger-frame, collision-frame, timer, collision-frame keeps the
invariant. -/
theorem crash_reentrancy_guard_witness :
    handleImmediateCrash ⟨true, 1, 0⟩ = ⟨true, 1, 0⟩
    ∧ frameStep true ⟨true, 1, 0⟩ = ⟨true, 1, 0⟩
    ∧ CrashInv (([.frame true, .frame true, .timerFire, .frame true] :
        List CrashEvent).foldl crashStep ⟨false, 0, 0⟩) :=
  crash_reentrancy_guard ⟨true, 1, 0⟩ ⟨false, 0, 0⟩
    [.frame true, .frame true, .timerFire, .frame true] true rfl
    (by decide)

end UFO360
